import Mathlib

/-!
Verification of the DWC2 USB host controller driver core
(src/system/dev/usb/dwc2/dwc2-host.c) against its specification.

The definitions below are a shallow embedding of the driver's data model and
of the functions the claims refer to.  Machine integers are modelled as `Nat`
(the driver's arithmetic stays far below every relevant 2^w bound, except
where a reduction modulo 2^16 is made explicit); fallible paths return
`Option`.  Hardware registers are abstracted by the values the driver reads
from them, passed as explicit arguments.
-/

namespace Dwc2

/-- Zircon status codes carried to upstream completions (ZX_OK, ZX_ERR_*). -/
inductive ZxStatus
  | ok
  | errIO
  | errInvalidArgs
  | errNoMemory
  | errNotSupported
deriving DecidableEq, Repr

/-- USB device speeds (usb_speed_t). -/
inductive Speed
  | low
  | full
  | high
deriving DecidableEq, Repr

/-- Endpoint transfer types, as returned by usb_ep_type on the endpoint
descriptor's bmAttributes. -/
inductive EpType
  | control
  | isochronous
  | bulk
  | interrupt
deriving DecidableEq, Repr

/-- DWC packet-id / data-toggle values (DWC_TOGGLE_DATA0, DATA1, DATA2,
SETUP/MDATA).  The claims only distinguish the values, never their numeric
encoding, so an inductive type suffices. -/
inductive Toggle
  | data0
  | data1
  | data2
  | setup
  | mdata
deriving DecidableEq, Repr

/-- Modelled from the spec: the control-transfer phases SETUP, DATA, STATUS
(the dwc_ctrl_phases enum lives in the driver header, which is not part of
src/).  The driver advances the phase field with `++` and compares it with
`<`, so the three values are consecutive in this order. -/
def CTRL_PHASE_SETUP : Nat := 1

/-- Second control phase (see CTRL_PHASE_SETUP). -/
def CTRL_PHASE_DATA : Nat := 2

/-- Third control phase (see CTRL_PHASE_SETUP). -/
def CTRL_PHASE_STATUS : Nat := 3

/-- The fields of a queued control transfer read by the control-phase state
machine: `setup.wLength` of the 8-byte SETUP packet and `header.length` of
the usb request. -/
structure CtrlReq where
  wLength : Nat
  length : Nat
deriving DecidableEq, Repr

/-- Per-request state mutated across the phases of one control transfer
(fields of dwc_usb_transfer_request_t; zeroed by get_free_request,
dwc2-host.c:431, and ctrl_phase set to SETUP on queueing, dwc2-host.c:396-398). -/
structure CtrlState where
  ctrl_phase : Nat
  bytes_transferred : Nat
  next_data_toggle : Toggle
deriving DecidableEq, Repr

/-- Packet id programmed by dwc_start_transfer for a control endpoint
(dwc2-host.c:861-922): SETUP phase uses the SETUP token, the DATA phase uses
DATA1 while no bytes have been transferred yet and the sticky toggle
afterwards, the STATUS phase uses DATA1. -/
def ctrl_transfer_packet_id (st : CtrlState) : Toggle :=
  if st.ctrl_phase = CTRL_PHASE_SETUP then Toggle.setup
  else if st.ctrl_phase = CTRL_PHASE_DATA then
    (if st.bytes_transferred = 0 then Toggle.data1 else st.next_data_toggle)
  else Toggle.data1

/-- Phase advance performed by handle_normal_channel_halted
(dwc2-host.c:1091-1116) when every queued packet of the current programming
completed: while `ctrl_phase < CTRL_PHASE_STATUS` the request is requeued at
the head with the incremented phase — resetting bytes_transferred and forcing
the toggle to DATA1 when leaving SETUP, and incrementing once more (skipping
DATA) when the advanced phase is DATA and `header.length` is zero.  `none`
means the handler released the channel and completed the request with ZX_OK. -/
def ctrl_advance (req : CtrlReq) (st : CtrlState) : Option CtrlState :=
  if st.ctrl_phase < CTRL_PHASE_STATUS then
    let st1 := if st.ctrl_phase = CTRL_PHASE_SETUP then
        { st with bytes_transferred := 0, next_data_toggle := Toggle.data1 }
      else st
    let p1 := st1.ctrl_phase + 1
    let p2 := if p1 = CTRL_PHASE_DATA ∧ req.length = 0 then p1 + 1 else p1
    some { st1 with ctrl_phase := p2 }
  else none

/-- Fuel-bounded run of the control-transfer state machine: the list of
(ctrl_phase, packet_id) pairs programmed by the successive dwc_start_transfer
calls of one control transfer, each phase halting normally, until the handler
completes the request. -/
def ctrl_run : Nat → CtrlReq → CtrlState → List (Nat × Toggle)
  | 0, _, _ => []
  | fuel + 1, req, st =>
    (st.ctrl_phase, ctrl_transfer_packet_id st) ::
      (match ctrl_advance req st with
       | none => []
       | some st1 => ctrl_run fuel req st1)

/-- The (phase, first packet id) sequence of a completed control transfer,
starting from the state in which dwc_usb_request_queue_hw enqueues it:
ctrl_phase = SETUP and a zeroed envelope. -/
def ctrl_phases (req : CtrlReq) : List (Nat × Toggle) :=
  ctrl_run 4 req
    { ctrl_phase := CTRL_PHASE_SETUP, bytes_transferred := 0,
      next_data_toggle := Toggle.data0 }

/-- ZX_MSEC: milliseconds as nanoseconds. -/
def ZX_MSEC (n : Nat) : Nat := n * 1000000

/-- Result of the NAK branch of handle_channel_halted_interrupt: how long the
scheduler sleeps before requeueing, and whether the channel was released. -/
structure NakAction where
  sleep_ns : Nat
  released : Bool
deriving DecidableEq, Repr

/-- The NAK branch of handle_channel_halted_interrupt (dwc2-host.c:1185-1222):
release the channel unless the endpoint is a control endpoint past its SETUP
phase; sleep `(1 << (bInterval - 1)) * 125000` ns on a high-speed parent and
`ZX_MSEC(bInterval)` otherwise, substituting ZX_MSEC(1) only when the
computed duration is zero.  The driver computes the high-speed shift and
product in 32-bit int arithmetic: the shift is ill-defined for bInterval = 0
and the product overflows int for bInterval >= 16 (32768 * 125000 exceeds
INT_MAX), so this embedding agrees with the program exactly on
1 <= bInterval <= 15, the domain on which theorems below are stated. -/
def handle_nak (epType : EpType) (ctrl_phase : Nat) (speed : Speed)
    (bInterval : Nat) : NakAction :=
  let released :=
    if epType ≠ EpType.control then true
    else decide (ctrl_phase = CTRL_PHASE_SETUP)
  let sleep0 :=
    if speed = Speed.high then (1 <<< (bInterval - 1)) * 125000
    else ZX_MSEC bInterval
  let sleep1 := if sleep0 = 0 then ZX_MSEC 1 else sleep0
  { sleep_ns := sleep1, released := released }

/-- Modelled from the spec: PAGE_SIZE, the one-page maximum transfer size
(4096 bytes on the targets this driver runs on). -/
def PAGE_SIZE : Nat := 4096

/-- dwc_get_max_transfer_size (dwc2-host.c:464-467): transfers are limited to
a single page. -/
def dwc_get_max_transfer_size : Nat := PAGE_SIZE

/-- ROOT_HUB_DEVICE_ID: device id 0 addresses the synthetic root hub. -/
def ROOT_HUB_DEVICE_ID : Nat := 0

/-- Where a request submitted through dwc_request_queue ends up. -/
inductive QueueOutcome
  | completed (status : ZxStatus) (actual : Nat)
  | rootHub
  | endpoint
deriving DecidableEq, Repr

/-- get_free_request (dwc2-host.c:416-439): pop a recycled envelope from the
free list; when the list is empty fall back to calloc, whose success is
abstracted by `allocOk`.  Returns the envelope obtained (if any) and the
remaining free list. -/
def get_free_request (free_reqs : List Nat) (allocOk : Bool) :
    Option Nat × List Nat :=
  match free_reqs with
  | [] => (if allocOk then some 0 else none, [])
  | r :: rest => (some r, rest)

/-- dwc_request_queue composed with do_dwc_usb_request_queue
(dwc2-host.c:479-490 and 441-462): oversized requests are completed
immediately with ZX_ERR_INVALID_ARGS; a request that cannot obtain an
envelope is completed with ZX_ERR_NO_MEMORY; otherwise the envelope is routed
to the root-hub queue (device id 0) or to the endpoint's pending list. -/
def dwc_request_queue (length device_id : Nat) (free_reqs : List Nat)
    (allocOk : Bool) : QueueOutcome :=
  if length > dwc_get_max_transfer_size then
    QueueOutcome.completed ZxStatus.errInvalidArgs 0
  else
    match (get_free_request free_reqs allocOk).1 with
    | none => QueueOutcome.completed ZxStatus.errNoMemory 0
    | some _ =>
      if device_id = ROOT_HUB_DEVICE_ID then QueueOutcome.rootHub
      else QueueOutcome.endpoint

/-- DIV_ROUND_UP (dwc2-host.c:14). -/
def DIV_ROUND_UP (n d : Nat) : Nat := (n + d - 1) / d

/-- Packet count programmed by dwc_start_transfer (dwc2-host.c:960-969):
ceiling division of the programmed size by the max packet size, forced to 1
when it comes out 0, with one extra packet when the request asks for a
zero-length packet and the size is an exact multiple of the max packet size. -/
def transfer_packet_count (size max_packet_size : Nat) (send_zlp : Bool) : Nat :=
  let pc := DIV_ROUND_UP size max_packet_size
  if pc = 0 then 1
  else if send_zlp ∧ size % max_packet_size = 0 then pc + 1
  else pc

/-- Modelled from the spec: standard USB descriptor-type codes (the zircon
usb headers are not part of src/; the spec fixes the descriptors bit-exactly,
which pins these to the USB 2.0 values). -/
def USB_DT_DEVICE : Nat := 1

/-- USB configuration descriptor type code. -/
def USB_DT_CONFIG : Nat := 2

/-- USB string descriptor type code. -/
def USB_DT_STRING : Nat := 3

/-- USB interface descriptor type code. -/
def USB_DT_INTERFACE : Nat := 4

/-- USB endpoint descriptor type code. -/
def USB_DT_ENDPOINT : Nat := 5

/-- USB hub class code. -/
def USB_CLASS_HUB : Nat := 9

/-- Direction bit of an IN endpoint address. -/
def USB_ENDPOINT_IN : Nat := 128

/-- bmAttributes transfer-type code of an interrupt endpoint. -/
def USB_ENDPOINT_INTERRUPT : Nat := 3

/-- Little-endian bytes of a 16-bit value (htole16 on the little-endian
targets this driver is built for). -/
def le16 (v : Nat) : List Nat := [v % 256, v / 256 % 256]

/-- usb_device_descriptor_t: 18 packed bytes, 16-bit fields little-endian. -/
structure UsbDeviceDescriptor where
  bLength : Nat
  bDescriptorType : Nat
  bcdUSB : Nat
  bDeviceClass : Nat
  bDeviceSubClass : Nat
  bDeviceProtocol : Nat
  bMaxPacketSize0 : Nat
  idVendor : Nat
  idProduct : Nat
  bcdDevice : Nat
  iManufacturer : Nat
  iProduct : Nat
  iSerialNumber : Nat
  bNumConfigurations : Nat
deriving DecidableEq, Repr

/-- The raw bytes usb_request_copyto reads from a usb_device_descriptor_t. -/
def UsbDeviceDescriptor.bytes (d : UsbDeviceDescriptor) : List Nat :=
  [d.bLength, d.bDescriptorType] ++ le16 d.bcdUSB ++
    [d.bDeviceClass, d.bDeviceSubClass, d.bDeviceProtocol, d.bMaxPacketSize0] ++
    le16 d.idVendor ++ le16 d.idProduct ++ le16 d.bcdDevice ++
    [d.iManufacturer, d.iProduct, d.iSerialNumber, d.bNumConfigurations]

/-- The constant root-hub device descriptor dwc_rh_descriptor
(dwc2-host.c:40-55): a USB 2.0 hub with a single TT, 64-byte EP0, vendor
0x18D1, product 0xA002, one configuration. -/
def dwc_rh_descriptor : UsbDeviceDescriptor :=
  { bLength := 18
    bDescriptorType := USB_DT_DEVICE
    bcdUSB := 0x0200
    bDeviceClass := USB_CLASS_HUB
    bDeviceSubClass := 0
    bDeviceProtocol := 1
    bMaxPacketSize0 := 64
    idVendor := 0x18D1
    idProduct := 0xA002
    bcdDevice := 0x0100
    iManufacturer := 1
    iProduct := 2
    iSerialNumber := 0
    bNumConfigurations := 1 }

/-- usb_configuration_descriptor_t: 9 packed bytes. -/
structure UsbConfigurationDescriptor where
  bLength : Nat
  bDescriptorType : Nat
  wTotalLength : Nat
  bNumInterfaces : Nat
  bConfigurationValue : Nat
  iConfiguration : Nat
  bmAttributes : Nat
  bMaxPower : Nat
deriving DecidableEq, Repr

/-- The raw bytes of a usb_configuration_descriptor_t. -/
def UsbConfigurationDescriptor.bytes (d : UsbConfigurationDescriptor) : List Nat :=
  [d.bLength, d.bDescriptorType] ++ le16 d.wTotalLength ++
    [d.bNumInterfaces, d.bConfigurationValue, d.iConfiguration,
      d.bmAttributes, d.bMaxPower]

/-- usb_interface_descriptor_t: 9 packed bytes. -/
structure UsbInterfaceDescriptor where
  bLength : Nat
  bDescriptorType : Nat
  bInterfaceNumber : Nat
  bAlternateSetting : Nat
  bNumEndpoints : Nat
  bInterfaceClass : Nat
  bInterfaceSubClass : Nat
  bInterfaceProtocol : Nat
  iInterface : Nat
deriving DecidableEq, Repr

/-- The raw bytes of a usb_interface_descriptor_t. -/
def UsbInterfaceDescriptor.bytes (d : UsbInterfaceDescriptor) : List Nat :=
  [d.bLength, d.bDescriptorType, d.bInterfaceNumber, d.bAlternateSetting,
    d.bNumEndpoints, d.bInterfaceClass, d.bInterfaceSubClass,
    d.bInterfaceProtocol, d.iInterface]

/-- usb_endpoint_descriptor_t: 7 packed bytes, wMaxPacketSize little-endian. -/
structure UsbEndpointDescriptor where
  bLength : Nat
  bDescriptorType : Nat
  bEndpointAddress : Nat
  bmAttributes : Nat
  wMaxPacketSize : Nat
  bInterval : Nat
deriving DecidableEq, Repr

/-- The raw bytes of a usb_endpoint_descriptor_t. -/
def UsbEndpointDescriptor.bytes (d : UsbEndpointDescriptor) : List Nat :=
  [d.bLength, d.bDescriptorType, d.bEndpointAddress, d.bmAttributes] ++
    le16 d.wMaxPacketSize ++ [d.bInterval]

/-- The fused configuration + interface + endpoint block served for the root
hub (the anonymous struct dwc_rh_config_descriptor, dwc2-host.c:59-93). -/
structure RhConfigBlock where
  config : UsbConfigurationDescriptor
  intf : UsbInterfaceDescriptor
  endp : UsbEndpointDescriptor
deriving DecidableEq, Repr

/-- The raw bytes of the fused block, as copied by usb_request_copyto. -/
def RhConfigBlock.bytes (b : RhConfigBlock) : List Nat :=
  b.config.bytes ++ b.intf.bytes ++ b.endp.bytes

/-- dwc_rh_config_descriptor (dwc2-host.c:59-93): one self-powered
configuration with a single hub interface and one interrupt IN endpoint. -/
def dwc_rh_config_descriptor : RhConfigBlock :=
  { config :=
    { bLength := 9
      bDescriptorType := USB_DT_CONFIG
      wTotalLength := 25
      bNumInterfaces := 1
      bConfigurationValue := 1
      iConfiguration := 0
      bmAttributes := 0xE0
      bMaxPower := 0 }
    intf :=
    { bLength := 9
      bDescriptorType := USB_DT_INTERFACE
      bInterfaceNumber := 0
      bAlternateSetting := 0
      bNumEndpoints := 1
      bInterfaceClass := USB_CLASS_HUB
      bInterfaceSubClass := 0
      bInterfaceProtocol := 0
      iInterface := 0 }
    endp :=
    { bLength := 7
      bDescriptorType := USB_DT_ENDPOINT
      bEndpointAddress := USB_ENDPOINT_IN + 1
      bmAttributes := USB_ENDPOINT_INTERRUPT
      wMaxPacketSize := 4
      bInterval := 12 } }

/-- dwc_language_list (dwc2-host.c:23-24): string descriptor 0, English US. -/
def dwc_language_list : List Nat := [4, USB_DT_STRING, 0x09, 0x04]

/-- dwc_manufacturer_string (dwc2-host.c:25-26): the UTF-16LE string
descriptor for the manufacturer. -/
def dwc_manufacturer_string : List Nat :=
  [16, USB_DT_STRING, 90, 0, 105, 0, 114, 0, 99, 0, 111, 0, 110, 0, 0, 0]

/-- dwc_product_string_2 (dwc2-host.c:27-31): the UTF-16LE string descriptor
for the product. -/
def dwc_product_string_2 : List Nat :=
  [36, USB_DT_STRING, 85, 0, 83, 0, 66, 0, 32, 0, 50, 0, 46, 0, 48, 0, 32, 0,
    82, 0, 111, 0, 111, 0, 116, 0, 32, 0, 72, 0, 117, 0, 98, 0, 0, 0]

/-- dwc_rh_string_table (dwc2-host.c:33-37). -/
def dwc_rh_string_table : List (List Nat) :=
  [dwc_language_list, dwc_manufacturer_string, dwc_product_string_2]

/-- A completed usb request as seen by the upstream stack: the status, the
payload bytes copied into it, and actual_length. -/
structure Completion where
  status : ZxStatus
  payload : List Nat
  actual : Nat
deriving DecidableEq, Repr

/-- dwc_root_hub_get_descriptor (dwc2-host.c:203-239).  The argument order is
the setup packet's (wValue, wIndex, wLength) after le16toh.  `none` records
that the function fell through every branch without completing the request:
that happens for descriptor types other than DEVICE, CONFIG and STRING, and
for DEVICE or CONFIG with a non-zero index. -/
def dwc_root_hub_get_descriptor (wValue wIndex wLength : Nat) : Option Completion :=
  let desc_type := wValue >>> 8
  if desc_type = USB_DT_DEVICE ∧ wIndex = 0 then
    let length := min wLength 18
    some { status := ZxStatus.ok, payload := dwc_rh_descriptor.bytes.take length,
           actual := length }
  else if desc_type = USB_DT_CONFIG ∧ wIndex = 0 then
    let desc_length := dwc_rh_config_descriptor.config.wTotalLength
    let length := min wLength desc_length
    some { status := ZxStatus.ok,
           payload := dwc_rh_config_descriptor.bytes.take length,
           actual := length }
  else if desc_type = USB_DT_STRING then
    let string_index := wValue % 256
    match dwc_rh_string_table[string_index]? with
    | some s =>
      let length := min wLength (s.headD 0)
      some { status := ZxStatus.ok, payload := s.take length, actual := length }
    | none => some { status := ZxStatus.errNotSupported, payload := [], actual := 0 }
  else none

/-- Standard USB request code USB_REQ_SET_ADDRESS. -/
def USB_REQ_SET_ADDRESS : Nat := 0x05

/-- Standard USB request code USB_REQ_GET_DESCRIPTOR. -/
def USB_REQ_GET_DESCRIPTOR : Nat := 0x06

/-- Standard USB request code USB_REQ_SET_CONFIGURATION. -/
def USB_REQ_SET_CONFIGURATION : Nat := 0x09

/-- dwc_process_root_hub_std_req (dwc2-host.c:241-257): SET_ADDRESS and
SET_CONFIGURATION are no-ops completed with ZX_OK, GET_DESCRIPTOR is
delegated, every other standard request is completed ZX_ERR_NOT_SUPPORTED.
`none` propagates a GET_DESCRIPTOR fall-through (no completion at all). -/
def dwc_process_root_hub_std_req (bRequest wValue wIndex wLength : Nat) :
    Option Completion :=
  if bRequest = USB_REQ_SET_ADDRESS then
    some { status := ZxStatus.ok, payload := [], actual := 0 }
  else if bRequest = USB_REQ_GET_DESCRIPTOR then
    dwc_root_hub_get_descriptor wValue wIndex wLength
  else if bRequest = USB_REQ_SET_CONFIGURATION then
    some { status := ZxStatus.ok, payload := [], actual := 0 }
  else
    some { status := ZxStatus.errNotSupported, payload := [], actual := 0 }

/-- FREE_REQ_CACHE_THRESHOLD (dwc2-host.c:12). -/
def FREE_REQ_CACHE_THRESHOLD : Nat := 1024

/-- The recycling tail of complete_request (dwc2-host.c:130-143): once the
upstream completion has been delivered, the envelope is freed if the cache
already holds at least the threshold, and appended to the cache otherwise
(free_req_count mirrors the list length). -/
def complete_request_cache (free_reqs : List Nat) (r : Nat) : List Nat :=
  if free_reqs.length ≥ FREE_REQ_CACHE_THRESHOLD then free_reqs
  else free_reqs ++ [r]

/-- The cache side of get_free_request (dwc2-host.c:416-439): taking an
envelope pops the head; an empty cache is left empty (the calloc fallback
does not touch the list). -/
def get_free_request_cache (free_reqs : List Nat) : List Nat :=
  match free_reqs with
  | [] => []
  | _ :: rest => rest

/-- The two operations that touch the free-request cache. -/
inductive CacheOp
  | complete (r : Nat)
  | take
deriving DecidableEq, Repr

/-- One cache operation applied to the free list. -/
def cache_step (free_reqs : List Nat) : CacheOp → List Nat
  | CacheOp.complete r => complete_request_cache free_reqs r
  | CacheOp.take => get_free_request_cache free_reqs

/-- The cache contents after a sequence of operations, starting from the
empty free list the driver boots with. -/
def cache_run (ops : List CacheOp) : List Nat :=
  ops.foldl cache_step []

/-- Modelled from the spec: hub-class feature selector C_PORT_CONNECTION
(the zircon usb-hub header is not part of src/; values follow the standard
hub-class encoding the spec refers to). -/
def USB_FEATURE_C_PORT_CONNECTION : Nat := 16

/-- Hub-class feature selector C_PORT_ENABLE. -/
def USB_FEATURE_C_PORT_ENABLE : Nat := 17

/-- Hub-class feature selector C_PORT_SUSPEND. -/
def USB_FEATURE_C_PORT_SUSPEND : Nat := 18

/-- Hub-class feature selector C_PORT_OVER_CURRENT. -/
def USB_FEATURE_C_PORT_OVER_CURRENT : Nat := 19

/-- Hub-class feature selector C_PORT_RESET. -/
def USB_FEATURE_C_PORT_RESET : Nat := 20

/-- wPortChange bit C_PORT_CONNECTION. -/
def USB_C_PORT_CONNECTION : Nat := 1

/-- wPortChange bit C_PORT_ENABLE. -/
def USB_C_PORT_ENABLE : Nat := 2

/-- wPortChange bit C_PORT_SUSPEND. -/
def USB_C_PORT_SUSPEND : Nat := 4

/-- wPortChange bit C_PORT_OVER_CURRENT. -/
def USB_C_PORT_OVER_CURRENT : Nat := 8

/-- wPortChange bit C_PORT_RESET. -/
def USB_C_PORT_RESET : Nat := 16

/-- wPortStatus bit PORT_SUSPEND — the mask the driver actually uses in the
C_PORT_SUSPEND case; it occupies the same bit position as the change bit. -/
def USB_PORT_SUSPEND : Nat := 4

/-- The root-port status words (usb_port_status_t), hub-class encoded. -/
structure PortStatus where
  wPortStatus : Nat
  wPortChange : Nat
deriving DecidableEq, Repr

/-- `x &= ~mask` on a uint16_t field: keep only the bits of the 16-bit word
that are not in the mask. -/
def clear16 (x mask : Nat) : Nat := x &&& (65535 ^^^ mask)

/-- The CLEAR_FEATURE branch of dwc_process_root_hub_class_req
(dwc2-host.c:287-308): clear one bit of wPortChange according to the feature
selector (the C_PORT_SUSPEND case uses the USB_PORT_SUSPEND mask), leave
everything else alone, and complete the request with ZX_OK. -/
def rh_clear_feature (ps : PortStatus) (wValue : Nat) : PortStatus × Completion :=
  let change :=
    if wValue = USB_FEATURE_C_PORT_CONNECTION then
      clear16 ps.wPortChange USB_C_PORT_CONNECTION
    else if wValue = USB_FEATURE_C_PORT_ENABLE then
      clear16 ps.wPortChange USB_C_PORT_ENABLE
    else if wValue = USB_FEATURE_C_PORT_SUSPEND then
      clear16 ps.wPortChange USB_PORT_SUSPEND
    else if wValue = USB_FEATURE_C_PORT_OVER_CURRENT then
      clear16 ps.wPortChange USB_C_PORT_OVER_CURRENT
    else if wValue = USB_FEATURE_C_PORT_RESET then
      clear16 ps.wPortChange USB_C_PORT_RESET
    else ps.wPortChange
  ({ ps with wPortChange := change },
    { status := ZxStatus.ok, payload := [], actual := 0 })

/-- The wPortChange bit that corresponds to each C_PORT_x feature selector in
the hub-class encoding (this is the claim-side mapping the cleared bit is
compared against). -/
def feature_change_bit (wValue : Nat) : Nat :=
  if wValue = USB_FEATURE_C_PORT_CONNECTION then USB_C_PORT_CONNECTION
  else if wValue = USB_FEATURE_C_PORT_ENABLE then USB_C_PORT_ENABLE
  else if wValue = USB_FEATURE_C_PORT_SUSPEND then USB_C_PORT_SUSPEND
  else if wValue = USB_FEATURE_C_PORT_OVER_CURRENT then USB_C_PORT_OVER_CURRENT
  else if wValue = USB_FEATURE_C_PORT_RESET then USB_C_PORT_RESET
  else 0

/-- State of the root-hub port-status machinery: the current wPortChange word
and the single interrupt-in slot rh_intr_req, holding the id of the stored
request if any. -/
structure RhState where
  wPortChange : Nat
  rh_intr_req : Option Nat
deriving DecidableEq, Repr

/-- dwc_complete_root_port_status_req (dwc2-host.c:146-160): when wPortChange
is non-zero and a request sits in the slot, copy the 16-bit value 0x2 into it
(two bytes, little-endian) and complete it with ZX_OK and
actual_length = sizeof(uint16_t) = 2, emptying the slot.  The second
component lists the (request id, completion) pairs delivered upstream. -/
def dwc_complete_root_port_status_req (s : RhState) :
    RhState × List (Nat × Completion) :=
  if s.wPortChange ≠ 0 then
    match s.rh_intr_req with
    | some r =>
      ({ s with rh_intr_req := none },
        [(r, { status := ZxStatus.ok, payload := [2, 0], actual := 2 })])
    | none => (s, [])
  else (s, [])

/-- The two events that touch the interrupt-in slot: a port interrupt
(dwc_handle_port_irq, dwc2-host.c:1400-1440, which recomputes wPortChange
from the latched hardware bits and then tries to complete the slot), and the
queueing of a new interrupt-in request to the root hub
(dwc_process_root_hub_request, dwc2-host.c:339-351, which stores the request
in the slot — overwriting it — and then tries to complete the slot). -/
inductive RhEvent
  | portIrq (newChange : Nat)
  | queueIntr (r : Nat)
deriving DecidableEq, Repr

/-- One root-hub event applied to the slot state; returns the new state and
the completions delivered upstream. -/
def rh_step (s : RhState) : RhEvent → RhState × List (Nat × Completion)
  | RhEvent.portIrq c => dwc_complete_root_port_status_req { s with wPortChange := c }
  | RhEvent.queueIntr r =>
    dwc_complete_root_port_status_req { s with rh_intr_req := some r }

/-- A run of root-hub events, accumulating every completion delivered. -/
def rh_run (s : RhState) : List RhEvent → RhState × List (Nat × Completion)
  | [] => (s, [])
  | e :: es =>
    let step := rh_step s e
    let rest := rh_run step.1 es
    (rest.1, step.2 ++ rest.2)

/-!  Theorems.  -/

/-- Claim C1, amended: the scheduler advances a completed control transfer
strictly through SETUP, then DATA, then STATUS, with the DATA phase skipped
iff the request's header length (not its setup wLength) is 0; SETUP is
programmed with packet id SETUP, the first DATA packet with DATA1, and
STATUS with DATA1. -/
theorem ctrl_phasing (req : CtrlReq) :
    (req.length = 0 →
      ctrl_phases req =
        [(CTRL_PHASE_SETUP, Toggle.setup), (CTRL_PHASE_STATUS, Toggle.data1)]) ∧
    (req.length ≠ 0 →
      ctrl_phases req =
        [(CTRL_PHASE_SETUP, Toggle.setup), (CTRL_PHASE_DATA, Toggle.data1),
          (CTRL_PHASE_STATUS, Toggle.data1)]) := by
  constructor <;> intro h <;>
    simp [ctrl_phases, ctrl_run, ctrl_advance, ctrl_transfer_packet_id,
      CTRL_PHASE_SETUP, CTRL_PHASE_DATA, CTRL_PHASE_STATUS, h]

/-- Claim C1, counterexample to the claim as stated: the skip is keyed on the
request's header length, not on the SETUP packet's wLength — a request with
wLength = 0 but header length 4 still runs a DATA phase. -/
theorem ctrl_phasing_cex :
    (CtrlReq.mk 0 4).wLength = 0 ∧
      CTRL_PHASE_DATA ∈ (ctrl_phases (CtrlReq.mk 0 4)).map Prod.fst := by
  decide

/-- Witness for ctrl_phasing at header lengths 0 and 4. -/
theorem ctrl_phasing_witness :
    ctrl_phases (CtrlReq.mk 0 0) =
      [(CTRL_PHASE_SETUP, Toggle.setup), (CTRL_PHASE_STATUS, Toggle.data1)] ∧
    ctrl_phases (CtrlReq.mk 4 4) =
      [(CTRL_PHASE_SETUP, Toggle.setup), (CTRL_PHASE_DATA, Toggle.data1),
        (CTRL_PHASE_STATUS, Toggle.data1)] :=
  ⟨(ctrl_phasing (CtrlReq.mk 0 0)).1 rfl,
    (ctrl_phasing (CtrlReq.mk 4 4)).2 (by decide)⟩

/-- Claim C3, amended: on a NAK the retry sleep is
(1 << (bInterval - 1)) * 125 µs on a high-speed device and bInterval ms
otherwise; the 1 ms floor is applied only when the computed duration is zero,
so only the non-high-speed sleep is always at least 1 ms.  The channel is
released unless the request is a control transfer in its DATA or STATUS
phase.  On a high-speed device the statement is restricted to
bInterval <= 15: the driver computes the product in 32-bit int arithmetic,
which overflows int for bInterval >= 16. -/
theorem nak_backoff (epType : EpType) (cp : Nat) (speed : Speed) (b : Nat)
    (hb1 : 1 ≤ b) (_hb2 : speed = Speed.high → b ≤ 15)
    (hcp : epType = EpType.control →
      cp = CTRL_PHASE_SETUP ∨ cp = CTRL_PHASE_DATA ∨ cp = CTRL_PHASE_STATUS) :
    ((handle_nak epType cp speed b).sleep_ns =
      if speed = Speed.high then 2 ^ (b - 1) * 125000 else b * 1000000) ∧
    (speed ≠ Speed.high → ZX_MSEC 1 ≤ (handle_nak epType cp speed b).sleep_ns) ∧
    ((handle_nak epType cp speed b).released = true ↔
      ¬ (epType = EpType.control ∧
          (cp = CTRL_PHASE_DATA ∨ cp = CTRL_PHASE_STATUS))) := by
  have hpow : (1 <<< (b - 1)) * 125000 ≠ 0 := by
    rw [Nat.shiftLeft_eq, one_mul]
    positivity
  have hms : b * 1000000 ≠ 0 := Nat.mul_ne_zero (by omega) (by norm_num)
  refine ⟨?_, ?_, ?_⟩
  · cases speed <;>
      simp [handle_nak, ZX_MSEC, hpow, hms, Nat.shiftLeft_eq]
  · intro hsp
    cases speed <;> simp_all [handle_nak, ZX_MSEC, hms]
  · cases epType <;>
      simp_all [handle_nak, CTRL_PHASE_SETUP, CTRL_PHASE_DATA, CTRL_PHASE_STATUS]
    all_goals omega

/-- Claim C3, counterexample to the claim as stated: the sleep is not always
at least 1 ms — a high-speed endpoint with bInterval = 1 sleeps 125 µs. -/
theorem nak_backoff_cex :
    (handle_nak EpType.interrupt CTRL_PHASE_SETUP Speed.high 1).sleep_ns = 125000 ∧
      125000 < ZX_MSEC 1 := by
  decide

/-- Witness for nak_backoff on a full-speed bulk endpoint with bInterval 4. -/
theorem nak_backoff_witness :
    (handle_nak EpType.bulk CTRL_PHASE_SETUP Speed.full 4).sleep_ns = 4000000 ∧
      (handle_nak EpType.bulk CTRL_PHASE_SETUP Speed.full 4).released = true := by
  have h := nak_backoff EpType.bulk CTRL_PHASE_SETUP Speed.full 4 (by decide)
    (by decide) (fun hc => absurd hc (by decide))
  exact ⟨by simpa using h.1, h.2.2.mpr (by decide)⟩

/-- Claim C5: the programmed packet count is the ceiling of size over
max_packet_size, except that it is 1 when the size is 0, with one extra
packet exactly when send_zlp is set and the size is a non-zero multiple of
the max packet size. -/
theorem packet_count_correct (size mps : Nat) (zlp : Bool) (h : 0 < mps) :
    transfer_packet_count size mps zlp =
      (if size = 0 then 1
        else size / mps + (if size % mps = 0 then 0 else 1)) +
        (if zlp = true ∧ size % mps = 0 ∧ size ≠ 0 then 1 else 0) := by
  rcases Nat.eq_zero_or_pos size with hs | hs
  · subst hs
    have h0 : (mps - 1) / mps = 0 := Nat.div_eq_of_lt (by omega)
    simp [transfer_packet_count, DIV_ROUND_UP, h0]
  · have hceil : DIV_ROUND_UP size mps = (size - 1) / mps + 1 := by
      have he : size + mps - 1 = (size - 1) + mps := by omega
      simp only [DIV_ROUND_UP, he, Nat.add_div_right _ h]
    have hsucc : size / mps = (size - 1) / mps + if mps ∣ size then 1 else 0 := by
      have h1 : size - 1 + 1 = size := by omega
      have h2 := Nat.succ_div (size - 1) mps
      rw [h1] at h2
      exact h2
    have hpc : ¬ DIV_ROUND_UP size mps = 0 := by
      rw [hceil]
      exact Nat.succ_ne_zero _
    have hsz : ¬ size = 0 := by omega
    by_cases hdvd : mps ∣ size
    · have hmod : size % mps = 0 := Nat.mod_eq_zero_of_dvd hdvd
      have hq : size / mps = (size - 1) / mps + 1 := by
        rw [hsucc, if_pos hdvd]
      cases zlp <;>
        simp [transfer_packet_count, hpc, hmod, hsz, hceil, hq]
    · have hmod : ¬ size % mps = 0 := fun hm => hdvd (Nat.dvd_of_mod_eq_zero hm)
      have hq : size / mps = (size - 1) / mps := by
        rw [hsucc, if_neg hdvd, Nat.add_zero]
      cases zlp <;>
        simp [transfer_packet_count, hpc, hmod, hsz, hceil, hq]

/-- Witness for packet_count_correct: 128 bytes at max packet size 64 with a
requested zero-length packet program 3 packets. -/
theorem packet_count_witness : transfer_packet_count 128 64 true = 3 := by
  have h := packet_count_correct 128 64 true (by decide)
  norm_num at h
  exact h

/-- Claim C4: dwc_request_queue immediately completes oversized requests with
ZX_ERR_INVALID_ARGS without queueing them anywhere, completes with
ZX_ERR_NO_MEMORY when the free cache is empty and allocation fails, and
otherwise routes the envelope to the root-hub queue when device_id is 0 and
to the endpoint's pending list otherwise. -/
theorem request_queue_routing (length device_id : Nat) (free_reqs : List Nat)
    (allocOk : Bool) :
    (length > PAGE_SIZE →
      dwc_request_queue length device_id free_reqs allocOk =
        QueueOutcome.completed ZxStatus.errInvalidArgs 0) ∧
    (length ≤ PAGE_SIZE → free_reqs = [] → allocOk = false →
      dwc_request_queue length device_id free_reqs allocOk =
        QueueOutcome.completed ZxStatus.errNoMemory 0) ∧
    (length ≤ PAGE_SIZE → (free_reqs ≠ [] ∨ allocOk = true) → device_id = 0 →
      dwc_request_queue length device_id free_reqs allocOk =
        QueueOutcome.rootHub) ∧
    (length ≤ PAGE_SIZE → (free_reqs ≠ [] ∨ allocOk = true) → device_id ≠ 0 →
      dwc_request_queue length device_id free_reqs allocOk =
        QueueOutcome.endpoint) := by
  have hmax : dwc_get_max_transfer_size = PAGE_SIZE := rfl
  refine ⟨fun hl => ?_, fun hl h1 h2 => ?_, fun hl h1 h2 => ?_, fun hl h1 h2 => ?_⟩
  · simp [dwc_request_queue, hmax, hl]
  · subst h1; subst h2
    simp [dwc_request_queue, get_free_request, hmax, Nat.not_lt.mpr hl]
  · subst h2
    cases free_reqs with
    | nil =>
      have ha : allocOk = true := by tauto
      subst ha
      simp [dwc_request_queue, get_free_request, hmax, Nat.not_lt.mpr hl,
        ROOT_HUB_DEVICE_ID]
    | cons q rest =>
      simp [dwc_request_queue, get_free_request, hmax, Nat.not_lt.mpr hl,
        ROOT_HUB_DEVICE_ID]
  · cases free_reqs with
    | nil =>
      have ha : allocOk = true := by tauto
      subst ha
      simp [dwc_request_queue, get_free_request, hmax, Nat.not_lt.mpr hl,
        ROOT_HUB_DEVICE_ID, h2]
    | cons q rest =>
      simp [dwc_request_queue, get_free_request, hmax, Nat.not_lt.mpr hl,
        ROOT_HUB_DEVICE_ID, h2]

/-- Witness for request_queue_routing: all four outcomes at concrete inputs. -/
theorem request_queue_witness :
    dwc_request_queue 8192 0 [] true =
      QueueOutcome.completed ZxStatus.errInvalidArgs 0 ∧
    dwc_request_queue 64 0 [] false =
      QueueOutcome.completed ZxStatus.errNoMemory 0 ∧
    dwc_request_queue 64 0 [5] false = QueueOutcome.rootHub ∧
    dwc_request_queue 64 3 [5] false = QueueOutcome.endpoint :=
  ⟨(request_queue_routing 8192 0 [] true).1 (by decide),
    (request_queue_routing 64 0 [] false).2.1 (by decide) rfl rfl,
    (request_queue_routing 64 0 [5] false).2.2.1 (by decide)
      (Or.inl (by decide)) rfl,
    (request_queue_routing 64 3 [5] false).2.2.2 (by decide)
      (Or.inl (by decide)) (by decide)⟩

/-- Claim C6: GET_DESCRIPTOR(DEVICE) returns exactly the constant 18-byte hub
device descriptor (class HUB, protocol 1, bMaxPacketSize0 64, vendor 0x18D1,
product 0xA002, one configuration) and GET_DESCRIPTOR(CONFIG) exactly the
25-byte fused configuration + interface + endpoint block (one HUB interface,
one interrupt IN endpoint 1 with wMaxPacketSize 4 and bInterval 12,
bmAttributes 0xE0, bMaxPower 0), whenever the requested wLength does not
truncate them. -/
theorem rh_descriptor_roundtrip (lenD lenC : Nat) (hD : 18 ≤ lenD)
    (hC : 25 ≤ lenC) :
    dwc_root_hub_get_descriptor (USB_DT_DEVICE * 256) 0 lenD =
      some { status := ZxStatus.ok, payload := dwc_rh_descriptor.bytes,
             actual := 18 } ∧
    dwc_rh_descriptor.bytes.length = 18 ∧
    dwc_rh_descriptor.bDeviceClass = USB_CLASS_HUB ∧
    dwc_rh_descriptor.bDeviceProtocol = 1 ∧
    dwc_rh_descriptor.bMaxPacketSize0 = 64 ∧
    dwc_rh_descriptor.idVendor = 0x18D1 ∧
    dwc_rh_descriptor.idProduct = 0xA002 ∧
    dwc_rh_descriptor.bNumConfigurations = 1 ∧
    dwc_root_hub_get_descriptor (USB_DT_CONFIG * 256) 0 lenC =
      some { status := ZxStatus.ok, payload := dwc_rh_config_descriptor.bytes,
             actual := 25 } ∧
    dwc_rh_config_descriptor.bytes.length = 25 ∧
    dwc_rh_config_descriptor.intf.bInterfaceClass = USB_CLASS_HUB ∧
    dwc_rh_config_descriptor.config.bNumInterfaces = 1 ∧
    dwc_rh_config_descriptor.intf.bNumEndpoints = 1 ∧
    dwc_rh_config_descriptor.endp.bEndpointAddress = USB_ENDPOINT_IN + 1 ∧
    dwc_rh_config_descriptor.endp.bmAttributes = USB_ENDPOINT_INTERRUPT ∧
    dwc_rh_config_descriptor.endp.wMaxPacketSize = 4 ∧
    dwc_rh_config_descriptor.endp.bInterval = 12 ∧
    dwc_rh_config_descriptor.config.bmAttributes = 0xE0 ∧
    dwc_rh_config_descriptor.config.bMaxPower = 0 := by
  have hminD : min lenD 18 = 18 := Nat.min_eq_right hD
  have hminC : min lenC 25 = 25 := Nat.min_eq_right hC
  have hbD : dwc_rh_descriptor.bytes.take 18 = dwc_rh_descriptor.bytes := by
    decide
  have hbC : dwc_rh_config_descriptor.bytes.take 25 =
      dwc_rh_config_descriptor.bytes := by decide
  refine ⟨?_, by decide, by decide, by decide, by decide, by decide, by decide,
    by decide, ?_, by decide, by decide, by decide, by decide, by decide,
    by decide, by decide, by decide, by decide, by decide⟩
  · simp [dwc_root_hub_get_descriptor, USB_DT_DEVICE, hminD, hbD]
  · have hwt : dwc_rh_config_descriptor.config.wTotalLength = 25 := rfl
    simp [dwc_root_hub_get_descriptor, USB_DT_DEVICE, USB_DT_CONFIG, hwt,
      hminC, hbC]

/-- Witness for rh_descriptor_roundtrip at wLength 255. -/
theorem rh_descriptor_roundtrip_witness :
    dwc_root_hub_get_descriptor (USB_DT_DEVICE * 256) 0 255 =
      some { status := ZxStatus.ok, payload := dwc_rh_descriptor.bytes,
             actual := 18 } ∧
    dwc_root_hub_get_descriptor (USB_DT_CONFIG * 256) 0 255 =
      some { status := ZxStatus.ok, payload := dwc_rh_config_descriptor.bytes,
             actual := 25 } := by
  have h := rh_descriptor_roundtrip 255 255 (by decide) (by decide)
  exact ⟨h.1, h.2.2.2.2.2.2.2.2.1⟩

/-- Helper: one cache operation preserves the threshold bound. -/
theorem cache_step_bound (l : List Nat) (op : CacheOp)
    (h : l.length ≤ FREE_REQ_CACHE_THRESHOLD) :
    (cache_step l op).length ≤ FREE_REQ_CACHE_THRESHOLD := by
  cases op with
  | complete r =>
    by_cases hl : l.length ≥ FREE_REQ_CACHE_THRESHOLD
    · simpa [cache_step, complete_request_cache, hl] using h
    · simp only [cache_step, complete_request_cache, if_neg hl,
        List.length_append, List.length_singleton]
      omega
  | take =>
    cases l with
    | nil => simp [cache_step, get_free_request_cache]
    | cons a rest =>
      simp only [cache_step, get_free_request_cache]
      simp only [List.length_cons] at h
      omega

/-- Helper: any operation sequence keeps the cache within the threshold. -/
theorem cache_run_bound_from (ops : List CacheOp) :
    ∀ l : List Nat, l.length ≤ FREE_REQ_CACHE_THRESHOLD →
      (ops.foldl cache_step l).length ≤ FREE_REQ_CACHE_THRESHOLD := by
  induction ops with
  | nil => intro l h; simpa using h
  | cons op rest ih =>
    intro l h
    simpa using ih (cache_step l op) (cache_step_bound l op h)

/-- Claim C7: on completion the envelope is deallocated when the cache
already holds at least FREE_REQ_CACHE_THRESHOLD entries and appended (count
incremented) otherwise, so the cache never exceeds the threshold over any
sequence of operations starting from the empty cache. -/
theorem free_cache_bounded (ops : List CacheOp) (l : List Nat) (r : Nat) :
    (l.length ≥ FREE_REQ_CACHE_THRESHOLD → complete_request_cache l r = l) ∧
    (l.length < FREE_REQ_CACHE_THRESHOLD →
      complete_request_cache l r = l ++ [r] ∧
      (complete_request_cache l r).length = l.length + 1) ∧
    (cache_run ops).length ≤ FREE_REQ_CACHE_THRESHOLD := by
  refine ⟨fun hl => ?_, fun hl => ?_, ?_⟩
  · simp [complete_request_cache, hl]
  · have hl2 : ¬ l.length ≥ FREE_REQ_CACHE_THRESHOLD := Nat.not_le.mpr hl
    constructor <;> simp [complete_request_cache, hl2]
  · exact cache_run_bound_from ops [] (by simp)

/-- Witness for free_cache_bounded: completing into an empty cache appends,
and a small run stays within the threshold. -/
theorem free_cache_bounded_witness :
    complete_request_cache [] 7 = [7] ∧
      (cache_run [CacheOp.complete 7, CacheOp.take]).length ≤
        FREE_REQ_CACHE_THRESHOLD := by
  have h := free_cache_bounded [CacheOp.complete 7, CacheOp.take] [] 7
  exact ⟨(h.2.1 (by decide)).1, h.2.2⟩

/-- Claim C8, amended: unknown standard bRequest values and out-of-table
string indices are completed with ZX_ERR_NOT_SUPPORTED, but a standard
GET_DESCRIPTOR whose descriptor type is not DEVICE, CONFIG or STRING — or
one for DEVICE/CONFIG with a non-zero index — falls through every branch of
dwc_root_hub_get_descriptor and the request is never completed. -/
theorem rh_std_req_completion (bReq wValue wIndex wLength : Nat) :
    (bReq ≠ USB_REQ_SET_ADDRESS → bReq ≠ USB_REQ_GET_DESCRIPTOR →
      bReq ≠ USB_REQ_SET_CONFIGURATION →
      dwc_process_root_hub_std_req bReq wValue wIndex wLength =
        some { status := ZxStatus.errNotSupported, payload := [], actual := 0 }) ∧
    (wValue >>> 8 = USB_DT_STRING → wValue % 256 ≥ 3 →
      dwc_process_root_hub_std_req USB_REQ_GET_DESCRIPTOR wValue wIndex wLength =
        some { status := ZxStatus.errNotSupported, payload := [], actual := 0 }) ∧
    (wValue >>> 8 ≠ USB_DT_DEVICE → wValue >>> 8 ≠ USB_DT_CONFIG →
      wValue >>> 8 ≠ USB_DT_STRING →
      dwc_process_root_hub_std_req USB_REQ_GET_DESCRIPTOR wValue wIndex wLength =
        none) ∧
    ((wValue >>> 8 = USB_DT_DEVICE ∨ wValue >>> 8 = USB_DT_CONFIG) →
      wIndex ≠ 0 →
      dwc_process_root_hub_std_req USB_REQ_GET_DESCRIPTOR wValue wIndex wLength =
        none) := by
  refine ⟨fun h1 h2 h3 => ?_, fun h1 h2 => ?_, fun h1 h2 h3 => ?_,
    fun h1 h2 => ?_⟩
  · simp [dwc_process_root_hub_std_req, h1, h2, h3]
  · have hnone : dwc_rh_string_table[wValue % 256]? = none := by
      apply List.getElem?_eq_none
      simpa [dwc_rh_string_table] using h2
    simp [dwc_process_root_hub_std_req, dwc_root_hub_get_descriptor,
      USB_REQ_SET_ADDRESS, USB_REQ_GET_DESCRIPTOR, USB_DT_DEVICE,
      USB_DT_CONFIG, USB_DT_STRING, h1, hnone]
  · simp [dwc_process_root_hub_std_req, dwc_root_hub_get_descriptor,
      USB_REQ_SET_ADDRESS, USB_REQ_GET_DESCRIPTOR, h1, h2, h3]
  · rcases h1 with h1 | h1 <;>
      simp [dwc_process_root_hub_std_req, dwc_root_hub_get_descriptor,
        USB_REQ_SET_ADDRESS, USB_REQ_GET_DESCRIPTOR, h1, h2,
        USB_DT_DEVICE, USB_DT_CONFIG, USB_DT_STRING]

/-- Claim C8, counterexample to the claim as stated: a standard GET_DESCRIPTOR
for an INTERFACE descriptor (type 4, not served by the root hub) receives no
completion at all instead of a ZX_ERR_NOT_SUPPORTED completion. -/
theorem rh_std_req_cex :
    dwc_process_root_hub_std_req USB_REQ_GET_DESCRIPTOR
        (USB_DT_INTERFACE * 256) 0 0 = none ∧
      (none : Option Completion) ≠
        some { status := ZxStatus.errNotSupported, payload := [], actual := 0 } := by
  decide

/-- Witness for rh_std_req_completion: an unknown bRequest and an
out-of-table string index both complete with ZX_ERR_NOT_SUPPORTED. -/
theorem rh_std_req_witness :
    dwc_process_root_hub_std_req 2 0 0 0 =
      some { status := ZxStatus.errNotSupported, payload := [], actual := 0 } ∧
    dwc_process_root_hub_std_req USB_REQ_GET_DESCRIPTOR
        (USB_DT_STRING * 256 + 5) 0 0 =
      some { status := ZxStatus.errNotSupported, payload := [], actual := 0 } :=
  ⟨(rh_std_req_completion 2 0 0 0).1 (by decide) (by decide) (by decide),
    (rh_std_req_completion 2 (USB_DT_STRING * 256 + 5) 0 0).2.1
      (by decide) (by decide)⟩

/-- Helper: masking a 16-bit word with the complement of a mask clears
exactly the mask's bits — the masked bits read zero afterwards, and oring the
mask back recovers the original word ored with the mask. -/
theorem clear16_exact (c b : Nat) (hc : c < 65536) (hb : b < 65536) :
    clear16 c b &&& b = 0 ∧ clear16 c b ||| b = c ||| b := by
  have h65535 : (65535 : Nat) = 2 ^ 16 - 1 := by norm_num
  constructor
  · apply Nat.eq_of_testBit_eq
    intro i
    simp only [clear16, Nat.testBit_and, Nat.testBit_xor, Nat.zero_testBit]
    rcases Nat.lt_or_ge i 16 with h16 | h16
    · have hm : Nat.testBit 65535 i = true := by
        rw [h65535, Nat.testBit_two_pow_sub_one]
        simpa using h16
      cases hcb : Nat.testBit b i <;> cases Nat.testBit c i <;> simp [hm, hcb]
    · have hbb : Nat.testBit b i = false :=
        Nat.testBit_lt_two_pow
          (lt_of_lt_of_le hb (Nat.pow_le_pow_right (show 0 < 2 by norm_num) h16))
      simp [hbb]
  · apply Nat.eq_of_testBit_eq
    intro i
    simp only [clear16, Nat.testBit_and, Nat.testBit_or, Nat.testBit_xor]
    rcases Nat.lt_or_ge i 16 with h16 | h16
    · have hm : Nat.testBit 65535 i = true := by
        rw [h65535, Nat.testBit_two_pow_sub_one]
        simpa using h16
      cases Nat.testBit b i <;> cases Nat.testBit c i <;> simp [hm]
    · have hbb : Nat.testBit b i = false :=
        Nat.testBit_lt_two_pow
          (lt_of_lt_of_le hb (Nat.pow_le_pow_right (show 0 < 2 by norm_num) h16))
      have hcc : Nat.testBit c i = false :=
        Nat.testBit_lt_two_pow
          (lt_of_lt_of_le hc (Nat.pow_le_pow_right (show 0 < 2 by norm_num) h16))
      simp [hbb, hcc]

/-- Claim C9: for every CLEAR_FEATURE(C_PORT_x) with x in {CONNECTION,
ENABLE, SUSPEND, OVER_CURRENT, RESET}, exactly the corresponding change bit
is cleared in wPortChange (the bit reads 0 afterwards and oring it back
recovers the original word, so no other bit moved), wPortStatus is left
unchanged, and the request is completed with ZX_OK. -/
theorem clear_feature_exact (ps : PortStatus) (v : Nat)
    (hc : ps.wPortChange < 65536)
    (hv : USB_FEATURE_C_PORT_CONNECTION ≤ v ∧ v ≤ USB_FEATURE_C_PORT_RESET) :
    ((rh_clear_feature ps v).1.wPortChange &&& feature_change_bit v = 0) ∧
    ((rh_clear_feature ps v).1.wPortChange ||| feature_change_bit v =
      ps.wPortChange ||| feature_change_bit v) ∧
    ((rh_clear_feature ps v).1.wPortStatus = ps.wPortStatus) ∧
    ((rh_clear_feature ps v).2 =
      { status := ZxStatus.ok, payload := [], actual := 0 }) := by
  have hv5 : v = 16 ∨ v = 17 ∨ v = 18 ∨ v = 19 ∨ v = 20 := by
    simp only [USB_FEATURE_C_PORT_CONNECTION, USB_FEATURE_C_PORT_RESET] at hv
    omega
  have hbit : feature_change_bit v < 65536 ∧
      (rh_clear_feature ps v).1.wPortChange =
        clear16 ps.wPortChange (feature_change_bit v) := by
    rcases hv5 with rfl | rfl | rfl | rfl | rfl <;>
      exact ⟨by decide, by
        simp [rh_clear_feature, feature_change_bit,
          USB_FEATURE_C_PORT_CONNECTION, USB_FEATURE_C_PORT_ENABLE,
          USB_FEATURE_C_PORT_SUSPEND, USB_FEATURE_C_PORT_OVER_CURRENT,
          USB_FEATURE_C_PORT_RESET, USB_C_PORT_CONNECTION, USB_C_PORT_ENABLE,
          USB_C_PORT_SUSPEND, USB_C_PORT_OVER_CURRENT, USB_C_PORT_RESET,
          USB_PORT_SUSPEND]⟩
  obtain ⟨hblt, heq⟩ := hbit
  have h := clear16_exact ps.wPortChange (feature_change_bit v) hc hblt
  exact ⟨by rw [heq]; exact h.1, by rw [heq]; exact h.2, rfl, rfl⟩

/-- Witness for clear_feature_exact: CLEAR_FEATURE(C_PORT_SUSPEND) on
wPortChange = 31 clears exactly bit 2 and leaves wPortStatus alone. -/
theorem clear_feature_witness :
    (rh_clear_feature (PortStatus.mk 21 31) 18).1.wPortChange &&&
        feature_change_bit 18 = 0 ∧
      (rh_clear_feature (PortStatus.mk 21 31) 18).1.wPortStatus = 21 := by
  have h := clear_feature_exact (PortStatus.mk 21 31) 18 (by decide) (by decide)
  exact ⟨h.1, h.2.2.1⟩

/-- Helper: dwc_complete_root_port_status_req never completes a request that
is not (or no longer) in the interrupt slot, and it never puts one there. -/
theorem complete_slot_other (s : RhState) (r1 : Nat)
    (hs : s.rh_intr_req ≠ some r1) :
    (dwc_complete_root_port_status_req s).1.rh_intr_req ≠ some r1 ∧
      ∀ comp : Completion,
        (r1, comp) ∉ (dwc_complete_root_port_status_req s).2 := by
  unfold dwc_complete_root_port_status_req
  by_cases hz : s.wPortChange ≠ 0
  · cases hslot : s.rh_intr_req with
    | none => simp [hz, hslot]
    | some r =>
      have hr : r ≠ r1 := fun he => hs (by rw [hslot, he])
      simp [hz, hslot, Ne.symm hr]
  · simp only [if_neg hz]
    exact ⟨hs, fun comp => by simp⟩

/-- Helper: a step on a state whose slot does not hold r1, by an event that
does not queue r1, leaves r1 out of the slot and delivers no completion
for r1. -/
theorem rh_step_other (s : RhState) (e : RhEvent) (r1 : Nat)
    (hs : s.rh_intr_req ≠ some r1) (he : e ≠ RhEvent.queueIntr r1) :
    (rh_step s e).1.rh_intr_req ≠ some r1 ∧
      ∀ comp : Completion, (r1, comp) ∉ (rh_step s e).2 := by
  cases e with
  | portIrq c =>
    exact complete_slot_other { s with wPortChange := c } r1 hs
  | queueIntr r2 =>
    have hr : r2 ≠ r1 := fun hrr => he (by rw [hrr])
    refine complete_slot_other { s with rh_intr_req := some r2 } r1 ?_
    simpa using hr

/-- Helper: once r1 is out of the interrupt slot, a run of events none of
which queues r1 again never delivers a completion for r1. -/
theorem rh_run_no_completion (r1 : Nat) (evs : List RhEvent) :
    ∀ s : RhState, s.rh_intr_req ≠ some r1 →
      (∀ e ∈ evs, e ≠ RhEvent.queueIntr r1) →
      ∀ comp : Completion, (r1, comp) ∉ (rh_run s evs).2 := by
  induction evs with
  | nil =>
    intro s _ _ comp
    simp [rh_run]
  | cons e es ih =>
    intro s hs hn comp
    have hstep := rh_step_other s e r1 hs (hn e (by simp))
    have hrest := ih (rh_step s e).1 hstep.1
      (fun x hx => hn x (by simp [hx]))
    simp only [rh_run, List.mem_append]
    push_neg
    exact ⟨hstep.2 comp, hrest comp⟩

/-- Claim C10: queueing a new interrupt-in request while an earlier one sits
uncompleted in rh_intr_req (wPortChange was zero) overwrites the slot with
the new request and delivers no completion at that moment; and as long as the
displaced request is never queued again (each envelope enters the root hub
once), no later port interrupt or queueing ever delivers any completion for
it. -/
theorem intr_slot_overwrite (s : RhState) (r1 r2 : Nat) (evs : List RhEvent)
    (_hs : s.rh_intr_req = some r1) (hz : s.wPortChange = 0) (hne : r2 ≠ r1)
    (hevs : ∀ e ∈ evs, e ≠ RhEvent.queueIntr r1) :
    (rh_step s (RhEvent.queueIntr r2)).1.rh_intr_req = some r2 ∧
    (rh_step s (RhEvent.queueIntr r2)).2 = [] ∧
    ∀ comp : Completion,
      (r1, comp) ∉ (rh_run (rh_step s (RhEvent.queueIntr r2)).1 evs).2 := by
  have hstep1 : (rh_step s (RhEvent.queueIntr r2)).1.rh_intr_req = some r2 := by
    simp [rh_step, dwc_complete_root_port_status_req, hz]
  have hstep2 : (rh_step s (RhEvent.queueIntr r2)).2 = [] := by
    simp [rh_step, dwc_complete_root_port_status_req, hz]
  refine ⟨hstep1, hstep2, ?_⟩
  intro comp
  apply rh_run_no_completion r1 evs (rh_step s (RhEvent.queueIntr r2)).1 ?_ hevs
  rw [hstep1]
  simpa using hne

/-- Witness for intr_slot_overwrite: request 1 is displaced by request 2 and
never completed by the following port interrupt. -/
theorem intr_slot_overwrite_witness :
    (rh_step (RhState.mk 0 (some 1)) (RhEvent.queueIntr 2)).1.rh_intr_req =
        some 2 ∧
      (1, { status := ZxStatus.ok, payload := [2, 0], actual := 2 }) ∉
        (rh_run (rh_step (RhState.mk 0 (some 1)) (RhEvent.queueIntr 2)).1
          [RhEvent.portIrq 1]).2 := by
  have h := intr_slot_overwrite (RhState.mk 0 (some 1)) 1 2 [RhEvent.portIrq 1]
    rfl rfl (by decide) (by intro e he; simp at he; subst he; decide)
  exact ⟨h.1, h.2.2 { status := ZxStatus.ok, payload := [2, 0], actual := 2 }⟩

/-- Claim C2, amended: a port interrupt that leaves wPortChange non-zero
while an interrupt-in request is stored in rh_intr_req completes that request
with ZX_OK — but with the two little-endian bytes of the uint16_t value
0x0002 as payload and actual_length 2, not a one-byte payload of 0x02 with
actual_length 1. -/
theorem port_change_completes_intr (s : RhState) (c r : Nat) (hc : c ≠ 0)
    (hs : s.rh_intr_req = some r) :
    (rh_step s (RhEvent.portIrq c)).2 =
      [(r, { status := ZxStatus.ok, payload := [2, 0], actual := 2 })] ∧
    (rh_step s (RhEvent.portIrq c)).1.rh_intr_req = none ∧
    (rh_step s (RhEvent.portIrq c)).1.wPortChange = c := by
  refine ⟨?_, ?_, ?_⟩ <;>
    simp [rh_step, dwc_complete_root_port_status_req, hc, hs]

/-- Claim C2, counterexample to the claim as stated: the completion delivered
for the stored interrupt-in request carries two payload bytes and
actual_length 2, not a one-byte payload with actual_length 1. -/
theorem port_change_completes_intr_cex :
    (rh_step (RhState.mk 0 (some 7)) (RhEvent.portIrq 1)).2 =
        [(7, { status := ZxStatus.ok, payload := [2, 0], actual := 2 })] ∧
      (rh_step (RhState.mk 0 (some 7)) (RhEvent.portIrq 1)).2 ≠
        [(7, { status := ZxStatus.ok, payload := [2], actual := 1 })] := by
  decide

/-- Witness for port_change_completes_intr at a concrete state. -/
theorem port_change_completes_intr_witness :
    (rh_step (RhState.mk 5 (some 3)) (RhEvent.portIrq 4)).2 =
      [(3, { status := ZxStatus.ok, payload := [2, 0], actual := 2 })] := by
  exact (port_change_completes_intr (RhState.mk 5 (some 3)) 4 3
    (by decide) rfl).1

end Dwc2
